import Mathlib

/-!
Shallow embedding of `src/sds1004x_bode/awgdrivers/fy6600.py`, the FeelTech
FY6600 AWG driver, together with theorems settling the specification claims.

Modelling conventions:
* Python floats are modelled as rationals (`ℚ`); the exact decimal formatting
  done with `"%.2f"` / `"%.3f"` is modelled by `formatFixed` (round half to
  even, the rounding `%` formatting applies).
* The serial transport is modelled by a trace of `Event`s: each
  `_send_command` call produces one `Event.send` carrying the command followed
  by one `Event.sleep` standing for the fixed `SLEEP_TIME` settling delay.
  Emitted command text is modelled up to the trailing `EOL` byte that
  `_send_command` appends to every command.
* Commands whose payload Python renders with `"%s"` on a float (phase and
  offset) carry the rational value itself, since that rendering depends on
  the float repr; commands with explicit `%.2f`/`%.3f` formatting, and the
  frequency payload, carry the exact string.
* A Python `channel` argument (an `int` or `None`) is `Option Int`; raising
  an exception is returning `Except.error`, in which case no event has been
  emitted (in the source, validation always precedes transmission).
* 2-element Python lists (`channel_on`, `r_load`, `v_out_coeff`) are pairs,
  indexed through `pyGet2`/`pySet2` which mirror Python list indexing
  including negative indices (`xs[-1]` is the last element).
-/

deriving instance DecidableEq for Except

namespace FY6600Spec

/-- `CHANNELS = (0, 1, 2)` from fy6600.py. -/
def CHANNELS : List Int := [0, 1, 2]

/-- `CHANNELS_ERROR` from fy6600.py. -/
def CHANNELS_ERROR : String := "Channel can be 1 or 2."

/-- `R_IN = 50.0`, the output impedance of the AWG, from fy6600.py. -/
def R_IN : ℚ := 50

/-- Modelled from the spec: the shared constants table's "high impedance"
sentinel (`constants.HI_Z`); the constants module is not under src/. The
spec fixes only that it is a sentinel distinct from ordinary impedances
(50.0 and 150.0 in particular); the concrete number is taken as 10^6 ohms. -/
def HI_Z : ℚ := 1000000

/-- Modelled from the spec: the shared constants table's fixed enumeration of
supported waveform-type codes (`constants.WAVE_TYPES`); the constants module
is not under src/. The spec fixes only that it is a fixed finite enumeration
containing the sine code; four codes (sine, square, pulse, triangle) are
modelled as 0..3. -/
def WAVE_TYPES : List Nat := [0, 1, 2, 3]

/-- Python exceptions the driver can raise. `unknownChannel` is
`UnknownChannelError`, `valueError` is `ValueError`; `typeError`,
`indexError` and `zeroDivision` model the built-in `TypeError` (e.g.
`None - 1`), `IndexError` and `ZeroDivisionError`. -/
inductive PyErr where
  | unknownChannel (msg : String)
  | valueError (msg : String)
  | typeError
  | indexError
  | zeroDivision
deriving DecidableEq

/-- Wire commands of the FY6600 protocol, one constructor per mnemonic.
String-payload constructors carry the exact payload text; `wfp`, `wmo`,
`wfo` carry the rational value rendered by Python's default `%s`. -/
inductive Cmd where
  | wmn (payload : String)
  | wfn (payload : String)
  | wmf (payload : String)
  | wff (payload : String)
  | wfp (value : ℚ)
  | wmw00
  | wfw00
  | wma (payload : String)
  | wfa (payload : String)
  | wmo (value : ℚ)
  | wfo (value : ℚ)
deriving DecidableEq

/-- Observable transport events: a write of one command, or the fixed
`SLEEP_TIME` settling delay. -/
inductive Event where
  | send (c : Cmd)
  | sleep
deriving DecidableEq

/-- `_send_command`: writes the command (with trailing EOL) and sleeps for
`SLEEP_TIME`. -/
def sendCommand (c : Cmd) : List Event := [Event.send c, Event.sleep]

/-! ### Decimal formatting (`"%.nf" % x`) -/

/-- The decimal digit character for `n < 10`. -/
def digitChar (n : Nat) : Char := Char.ofNat (48 + n)

/-- Digits of `n`, most significant first; `fuel` bounds the recursion and
any `fuel ≥ 1` larger than the digit count is enough. -/
def natDigitsAux : Nat → Nat → List Char
  | 0, _ => []
  | fuel + 1, n => if n < 10 then [digitChar n] else natDigitsAux fuel (n / 10) ++ [digitChar (n % 10)]

/-- Decimal rendering of a natural number. -/
def natStr (n : Nat) : String := String.mk (natDigitsAux (n + 1) n)

/-- Left-pad a string with `'0'` to length `w`. -/
def padZero (w : Nat) (s : String) : String :=
  String.mk (List.replicate (w - s.length) '0') ++ s

/-- Round to the nearest integer, ties to even (the rounding used by C's and
Python's fixed-point `%` formatting). -/
def roundHalfEven (q : ℚ) : Int :=
  let f : Int := q.floor
  let r : ℚ := q - f
  if r < 1 / 2 then f
  else if 1 / 2 < r then f + 1
  else if f % 2 = 0 then f else f + 1

/-- `"%.precf" % q`: fixed-point decimal with `prec` fractional digits. -/
def formatFixed (prec : Nat) (q : ℚ) : String :=
  let scaled : Int := roundHalfEven (q * (10 : ℚ) ^ prec)
  let n : Nat := scaled.natAbs
  let ip : Nat := n / 10 ^ prec
  let fp : Nat := n % 10 ^ prec
  let sign : String := if scaled < 0 ∨ (scaled = 0 ∧ q < 0) then "-" else ""
  sign ++ natStr ip ++ "." ++ padZero prec (natStr fp)

/-- `s.replace(".", "")`: drop every `'.'` character. -/
def removeDots (s : String) : String := String.mk (s.data.filter (fun c => c ≠ '.'))

/-! ### Session state and Python 2-list indexing -/

/-- The driver's mutable per-channel state: `channel_on`, `r_load`,
`v_out_coeff`, each a 2-element Python list (first component = index 0 =
channel 1). The serial handle itself is kept abstract (the transport's
visible behaviour is the event trace). -/
structure FY6600State where
  channel_on : Bool × Bool
  r_load : ℚ × ℚ
  v_out_coeff : ℚ × ℚ
deriving DecidableEq

/-- The state established by `FY6600.__init__`: `channel_on = [False, False]`,
`r_load = [50, 50]`, `v_out_coeff = [1, 1]`. -/
def initState : FY6600State :=
  { channel_on := (false, false), r_load := (50, 50), v_out_coeff := (1, 1) }

/-- `xs[i]` for a 2-element Python list: indices 0 and 1 from the front,
-1 and -2 from the back, anything else is an `IndexError` (`none`). -/
def pyGet2 {α : Type} (p : α × α) (i : Int) : Option α :=
  if i = 0 ∨ i = -2 then some p.1
  else if i = 1 ∨ i = -1 then some p.2
  else none

/-- `xs[i] = v` for a 2-element Python list, same index convention as
`pyGet2`. -/
def pySet2 {α : Type} (p : α × α) (i : Int) (v : α) : Option (α × α) :=
  if i = 0 ∨ i = -2 then some (v, p.2)
  else if i = 1 ∨ i = -1 then some (p.1, v)
  else none

/-! ### The driver operations -/

/-- `FY6600.enable_output(channel, on)` (fy6600.py lines 74-103): validates
the channel, updates `channel_on` (index `channel - 1` for a single channel,
both entries for `0` or `None`), then always sends `WMN<ch1>` and `WFN<ch2>`
reflecting the stored flags. -/
def enable_output (s : FY6600State) (channel : Option Int) (turn_on : Bool) :
    Except PyErr (FY6600State × List Event) :=
  match channel with
  | some c =>
    if c ∉ CHANNELS then Except.error (PyErr.unknownChannel CHANNELS_ERROR)
    else
      let newOn : Option (Bool × Bool) :=
        if c ≠ 0 then pySet2 s.channel_on (c - 1) turn_on else some (turn_on, turn_on)
      match newOn with
      | none => Except.error PyErr.indexError
      | some onPair =>
        let ch1 : String := if onPair.1 then "1" else "0"
        let ch2 : String := if onPair.2 then "1" else "0"
        Except.ok ({ s with channel_on := onPair },
          sendCommand (Cmd.wmn ch1) ++ sendCommand (Cmd.wfn ch2))
  | none =>
    let onPair : Bool × Bool := (turn_on, turn_on)
    let ch1 : String := if onPair.1 then "1" else "0"
    let ch2 : String := if onPair.2 then "1" else "0"
    Except.ok ({ s with channel_on := onPair },
      sendCommand (Cmd.wmn ch1) ++ sendCommand (Cmd.wfn ch2))

/-- The frequency payload of `FY6600.set_frequency`:
`freq_str = "%.2f" % freq`, `freq_str = freq_str.replace(".", "")`,
`freq_str = freq_str + "0000"`. -/
def freqPayload (freq : ℚ) : String := removeDots (formatFixed 2 freq) ++ "0000"

/-- `FY6600.set_frequency(channel, freq)` (fy6600.py lines 105-132):
validates the channel, then sends `WMF<payload>` when the channel is 0, 1 or
`None`, and `WFF<payload>` when the channel is 0 or 2. -/
def set_frequency (s : FY6600State) (channel : Option Int) (freq : ℚ) :
    Except PyErr (FY6600State × List Event) :=
  match channel with
  | some c =>
    if c ∉ CHANNELS then Except.error (PyErr.unknownChannel CHANNELS_ERROR)
    else
      Except.ok (s,
        (if c = 0 ∨ c = 1 then sendCommand (Cmd.wmf (freqPayload freq)) else []) ++
        (if c = 0 ∨ c = 2 then sendCommand (Cmd.wff (freqPayload freq)) else []))
  | none => Except.ok (s, sendCommand (Cmd.wmf (freqPayload freq)))

/-- `FY6600.set_phase(channel, phase)` (fy6600.py lines 134-148): performs no
channel validation; adds 360 once when the phase is negative; always sends a
single `WFP` (channel 2) command. -/
def set_phase (s : FY6600State) (channel : Option Int) (phase : ℚ) :
    Except PyErr (FY6600State × List Event) :=
  let phase2 : ℚ := if phase < 0 then phase + 360 else phase
  match channel with
  | _ => Except.ok (s, sendCommand (Cmd.wfp phase2))

/-- `FY6600.set_wave_type(channel, wave_type)` (fy6600.py lines 150-173):
validates the channel, then the wave type against `constants.WAVE_TYPES`
(raising `ValueError("Incorrect wave type.")`), then sends the hard-coded
sine commands `WMW00` (channel 0, 1 or `None`) and `WFW00` (channel 0, 2 or
`None`). -/
def set_wave_type (s : FY6600State) (channel : Option Int) (wave_type : Nat) :
    Except PyErr (FY6600State × List Event) :=
  match channel with
  | some c =>
    if c ∉ CHANNELS then Except.error (PyErr.unknownChannel CHANNELS_ERROR)
    else if wave_type ∉ WAVE_TYPES then Except.error (PyErr.valueError "Incorrect wave type.")
    else
      Except.ok (s,
        (if c = 0 ∨ c = 1 then sendCommand Cmd.wmw00 else []) ++
        (if c = 0 ∨ c = 2 then sendCommand Cmd.wfw00 else []))
  | none =>
    if wave_type ∉ WAVE_TYPES then Except.error (PyErr.valueError "Incorrect wave type.")
    else
      Except.ok (s, sendCommand Cmd.wmw00 ++ sendCommand Cmd.wfw00)

/-- `FY6600.set_amplitude(channel, amplitude)` (fy6600.py lines 175-202):
validates the channel, divides the amplitude by
`self.v_out_coeff[channel - 1]` (a `TypeError` when the channel is `None`, a
`ZeroDivisionError` when that coefficient is 0), formats with `"%.3f"`, and
sends `WMA`/`WFA` per targeted channel with that one payload. -/
def set_amplitude (s : FY6600State) (channel : Option Int) (amplitude : ℚ) :
    Except PyErr (FY6600State × List Event) :=
  match channel with
  | some c =>
    if c ∉ CHANNELS then Except.error (PyErr.unknownChannel CHANNELS_ERROR)
    else
      match pyGet2 s.v_out_coeff (c - 1) with
      | none => Except.error PyErr.indexError
      | some coeff =>
        if coeff = 0 then Except.error PyErr.zeroDivision
        else
          let amp_str : String := formatFixed 3 (amplitude / coeff)
          Except.ok (s,
            (if c = 0 ∨ c = 1 then sendCommand (Cmd.wma amp_str) else []) ++
            (if c = 0 ∨ c = 2 then sendCommand (Cmd.wfa amp_str) else []))
  | none => Except.error PyErr.typeError

/-- `FY6600.set_offset(channel, offset)` (fy6600.py lines 204-226): same
structure as `set_amplitude`, but the adjusted value is rendered with
Python's default `%s` conversion (modelled by carrying the rational). -/
def set_offset (s : FY6600State) (channel : Option Int) (offset : ℚ) :
    Except PyErr (FY6600State × List Event) :=
  match channel with
  | some c =>
    if c ∉ CHANNELS then Except.error (PyErr.unknownChannel CHANNELS_ERROR)
    else
      match pyGet2 s.v_out_coeff (c - 1) with
      | none => Except.error PyErr.indexError
      | some coeff =>
        if coeff = 0 then Except.error PyErr.zeroDivision
        else
          let adjusted : ℚ := offset / coeff
          Except.ok (s,
            (if c = 0 ∨ c = 1 then sendCommand (Cmd.wmo adjusted) else []) ++
            (if c = 0 ∨ c = 2 then sendCommand (Cmd.wfo adjusted) else []))
  | none => Except.error PyErr.typeError

/-- `FY6600.set_load_impedance(channel, z)` (fy6600.py lines 228-250):
validates the channel, stores `z` at `self.r_load[channel - 1]` (a
`TypeError` when the channel is `None`), then computes the output
coefficient: 1 when `z == constants.HI_Z`, else `z / (z + R_IN)` — a
division that raises `ZeroDivisionError` when `z + R_IN == 0`, i.e. at
`z = -50`, after `r_load` has already been mutated (a mutation the error
result of this model does not record) — and stores the coefficient at
`self.v_out_coeff[channel - 1]`. Sends nothing. -/
def set_load_impedance (s : FY6600State) (channel : Option Int) (z : ℚ) :
    Except PyErr (FY6600State × List Event) :=
  match channel with
  | some c =>
    if c ∉ CHANNELS then Except.error (PyErr.unknownChannel CHANNELS_ERROR)
    else
      match pySet2 s.r_load (c - 1) z with
      | none => Except.error PyErr.indexError
      | some newLoad =>
        if z ≠ HI_Z ∧ z + R_IN = 0 then Except.error PyErr.zeroDivision
        else
          let v_out_coeff : ℚ := if z = HI_Z then 1 else z / (z + R_IN)
          match pySet2 s.v_out_coeff (c - 1) v_out_coeff with
          | none => Except.error PyErr.indexError
          | some newCoeff =>
            Except.ok ({ s with r_load := newLoad, v_out_coeff := newCoeff }, [])
  | none => Except.error PyErr.typeError

/-! ### Derived notions used by the claims -/

/-- The voltage divider coefficient the spec assigns to a stored load `z`:
1 for the Hi-Z sentinel, else `z / (z + 50.0)`. -/
def coeffOf (z : ℚ) : ℚ := if z = HI_Z then 1 else z / (z + R_IN)

/-- The spec's invariant relation on one channel slot: the stored
coefficient equals the divider coefficient of the stored load. -/
def slotOK (load coeff : ℚ) : Prop := coeff = coeffOf load

/-- The spec's invariant on the whole state: both channel slots satisfy
`slotOK`. -/
def coeffInv (s : FY6600State) : Prop :=
  slotOK s.r_load.1 s.v_out_coeff.1 ∧ slotOK s.r_load.2 s.v_out_coeff.2

instance (load coeff : ℚ) : Decidable (slotOK load coeff) := by
  unfold slotOK; infer_instance

instance (s : FY6600State) : Decidable (coeffInv s) := by
  unfold coeffInv; infer_instance

/-- The session state reached by `set_load_impedance(1, 50.0)` from the
initial state: channel 1's coefficient is 1/2, channel 2's is still 1. -/
def stateLoad1_50 : FY6600State :=
  { channel_on := (false, false), r_load := (50, 50), v_out_coeff := (1/2, 1) }

/-- The session state reached by `set_load_impedance(2, 50.0)` from the
initial state: channel 2's coefficient is 1/2, channel 1's is still 1 (a
state in which the two channels have different coefficients). -/
def stateLoad2_50 : FY6600State :=
  { channel_on := (false, false), r_load := (50, 50), v_out_coeff := (1, 1/2) }

/-- A session state in which both channel slots satisfy the divider
relation (both loads 50 with coefficient 1/2). -/
def stateBothHalf : FY6600State :=
  { channel_on := (false, false), r_load := (50, 50), v_out_coeff := (1/2, 1/2) }

/-! ### Helper lemmas -/

/-- The valid non-`None` channel arguments are exactly 0, 1 and 2. -/
theorem mem_CHANNELS {c : Int} (hc : c ∈ CHANNELS) : c = 0 ∨ c = 1 ∨ c = 2 := by
  simpa [CHANNELS] using hc

/-- Full characterization of `set_load_impedance` on a valid channel when
the divider does not divide by zero (`z` is the sentinel or `z + R_IN ≠ 0`):
the slot at Python index `c - 1` (the first slot only for `c = 1`; the
second slot for `c = 2` and — through index `-1` — also for `c = 0`)
receives the load and its divider coefficient, and no event is emitted. -/
theorem set_load_impedance_eq (s : FY6600State) (c : Int) (hc : c ∈ CHANNELS) (z : ℚ)
    (hz : z = HI_Z ∨ z + R_IN ≠ 0) :
    set_load_impedance s (some c) z =
      Except.ok ((if c = 1
        then { s with r_load := (z, s.r_load.2), v_out_coeff := (coeffOf z, s.v_out_coeff.2) }
        else { s with r_load := (s.r_load.1, z), v_out_coeff := (s.v_out_coeff.1, coeffOf z) }), []) := by
  have hguard : ¬(z ≠ HI_Z ∧ z + R_IN = 0) := by
    rcases hz with rfl | hz
    · simp
    · exact fun h => hz h.2
  rcases mem_CHANNELS hc with rfl | rfl | rfl <;>
    simp [set_load_impedance, pySet2, coeffOf, hc, hguard]

/-- On a valid channel, a non-sentinel load of exactly `-R_IN` makes the
divider divide by zero: `set_load_impedance` raises `ZeroDivisionError`. -/
theorem set_load_impedance_zero_div (s : FY6600State) (c : Int) (hc : c ∈ CHANNELS) (z : ℚ)
    (h1 : z ≠ HI_Z) (h2 : z + R_IN = 0) :
    set_load_impedance s (some c) z = Except.error PyErr.zeroDivision := by
  rcases mem_CHANNELS hc with rfl | rfl | rfl <;>
    simp [set_load_impedance, pySet2, hc, h1, h2]

/-- A load other than `-R_IN` never triggers the divider's zero division. -/
theorem guard_of_ne_neg_R_IN {z : ℚ} (hz : z ≠ -R_IN) : z = HI_Z ∨ z + R_IN ≠ 0 := by
  by_cases h1 : z = HI_Z
  · exact Or.inl h1
  · exact Or.inr fun h2 => hz (by linarith)

/-- A successful `set_frequency` leaves the session state unchanged. -/
theorem set_frequency_state {s : FY6600State} {ch : Option Int} {f : ℚ} {s' : FY6600State}
    {ev : List Event} (h : set_frequency s ch f = Except.ok (s', ev)) : s' = s := by
  cases ch <;> simp only [set_frequency] at h <;> (repeat' split at h) <;> simp_all

/-- A successful `set_phase` leaves the session state unchanged. -/
theorem set_phase_state {s : FY6600State} {ch : Option Int} {p : ℚ} {s' : FY6600State}
    {ev : List Event} (h : set_phase s ch p = Except.ok (s', ev)) : s' = s := by
  cases ch <;> simp only [set_phase] at h <;> simp_all

/-- A successful `set_wave_type` leaves the session state unchanged. -/
theorem set_wave_type_state {s : FY6600State} {ch : Option Int} {w : Nat} {s' : FY6600State}
    {ev : List Event} (h : set_wave_type s ch w = Except.ok (s', ev)) : s' = s := by
  cases ch <;> simp only [set_wave_type] at h <;> (repeat' split at h) <;> simp_all

/-- A successful `set_amplitude` leaves the session state unchanged. -/
theorem set_amplitude_state {s : FY6600State} {ch : Option Int} {a : ℚ} {s' : FY6600State}
    {ev : List Event} (h : set_amplitude s ch a = Except.ok (s', ev)) : s' = s := by
  cases ch <;> simp only [set_amplitude] at h <;> (repeat' split at h) <;> simp_all

/-- A successful `set_offset` leaves the session state unchanged. -/
theorem set_offset_state {s : FY6600State} {ch : Option Int} {o : ℚ} {s' : FY6600State}
    {ev : List Event} (h : set_offset s ch o = Except.ok (s', ev)) : s' = s := by
  cases ch <;> simp only [set_offset] at h <;> (repeat' split at h) <;> simp_all

/-- A successful `enable_output` touches only `channel_on`: the load and
coefficient arrays are unchanged. -/
theorem enable_output_frame {s : FY6600State} {ch : Option Int} {t : Bool} {s' : FY6600State}
    {ev : List Event} (h : enable_output s ch t = Except.ok (s', ev)) :
    s'.r_load = s.r_load ∧ s'.v_out_coeff = s.v_out_coeff := by
  cases ch <;> simp only [enable_output] at h <;> (repeat' split at h) <;> simp_all <;>
    obtain ⟨rfl, rfl⟩ := h <;> simp

/-- A successful `set_load_impedance` on a `some` channel implies the
channel was one of 0, 1, 2. -/
theorem set_load_impedance_channels {s : FY6600State} {c : Int} {z : ℚ} {s' : FY6600State}
    {ev : List Event} (h : set_load_impedance s (some c) z = Except.ok (s', ev)) :
    c ∈ CHANNELS := by
  by_cases hc : c ∈ CHANNELS
  · exact hc
  · simp [set_load_impedance, hc] at h

/-- `set_wave_type` on a valid channel and supported wave type sends the
hard-coded sine commands, per targeted channel. -/
theorem set_wave_type_ok_eq (s : FY6600State) (c : Int) (hc : c ∈ CHANNELS) (w : Nat)
    (hw : w ∈ WAVE_TYPES) :
    set_wave_type s (some c) w = Except.ok (s,
      (if c = 0 ∨ c = 1 then [Event.send Cmd.wmw00, Event.sleep] else []) ++
      (if c = 0 ∨ c = 2 then [Event.send Cmd.wfw00, Event.sleep] else [])) := by
  rcases mem_CHANNELS hc with rfl | rfl | rfl <;> simp [set_wave_type, sendCommand, hc, hw]

/-- `set_frequency` on a valid channel emits `WMF`/`WFF` with the payload
`freqPayload` per targeted channel, leaving the state unchanged. -/
theorem set_frequency_eq (s : FY6600State) (c : Int) (hc : c ∈ CHANNELS) (f : ℚ) :
    set_frequency s (some c) f = Except.ok (s,
      (if c = 0 ∨ c = 1 then [Event.send (Cmd.wmf (freqPayload f)), Event.sleep] else []) ++
      (if c = 0 ∨ c = 2 then [Event.send (Cmd.wff (freqPayload f)), Event.sleep] else [])) := by
  rcases mem_CHANNELS hc with rfl | rfl | rfl <;> simp [set_frequency, sendCommand, hc]

/-- The frequency payload never contains a decimal point. -/
theorem freqPayload_no_dot (f : ℚ) : '.' ∉ (freqPayload f).data := by
  intro hmem
  have hdata : (freqPayload f).data =
      (formatFixed 2 f).data.filter (fun c => c ≠ '.') ++ "0000".data := rfl
  rw [hdata] at hmem
  rcases List.mem_append.mp hmem with hm | hm
  · simpa using List.of_mem_filter hm
  · exact absurd hm (by decide)

/-! ### Claim theorems -/

/-- C1 (amended): the divider relation between `v_out_coeff` and `r_load`
is preserved by every operation once it holds on both channel slots, and
every successful `set_load_impedance` establishes it at the slot it writes
(Python index `channel - 1`, readable afterwards through `pyGet2`). It does
not hold at construction (see the counterexample): the default load is 50.0
per channel but the constructed coefficient is 1. -/
theorem claim_C1_coeff_divider_invariant (s : FY6600State) (h : coeffInv s) :
    (∀ ch t s' ev, enable_output s ch t = Except.ok (s', ev) → coeffInv s') ∧
    (∀ ch f s' ev, set_frequency s ch f = Except.ok (s', ev) → coeffInv s') ∧
    (∀ ch p s' ev, set_phase s ch p = Except.ok (s', ev) → coeffInv s') ∧
    (∀ ch w s' ev, set_wave_type s ch w = Except.ok (s', ev) → coeffInv s') ∧
    (∀ ch a s' ev, set_amplitude s ch a = Except.ok (s', ev) → coeffInv s') ∧
    (∀ ch o s' ev, set_offset s ch o = Except.ok (s', ev) → coeffInv s') ∧
    (∀ ch z s' ev, set_load_impedance s ch z = Except.ok (s', ev) → coeffInv s') ∧
    (∀ c z s' ev, set_load_impedance s (some c) z = Except.ok (s', ev) →
      pyGet2 s'.r_load (c - 1) = some z ∧ pyGet2 s'.v_out_coeff (c - 1) = some (coeffOf z)) := by
  refine ⟨?_, ?_, ?_, ?_, ?_, ?_, ?_, ?_⟩
  · intro ch t s' ev h'
    obtain ⟨h1, h2⟩ := enable_output_frame h'
    unfold coeffInv slotOK
    rw [h1, h2]
    exact h
  · intro ch f s' ev h'
    rw [set_frequency_state h']
    exact h
  · intro ch p s' ev h'
    rw [set_phase_state h']
    exact h
  · intro ch w s' ev h'
    rw [set_wave_type_state h']
    exact h
  · intro ch a s' ev h'
    rw [set_amplitude_state h']
    exact h
  · intro ch o s' ev h'
    rw [set_offset_state h']
    exact h
  · intro ch z s' ev h'
    cases ch with
    | none => simp [set_load_impedance] at h'
    | some c =>
      have hc := set_load_impedance_channels h'
      have hz : z = HI_Z ∨ z + R_IN ≠ 0 := by
        by_cases hz1 : z = HI_Z
        · exact Or.inl hz1
        · refine Or.inr fun hz2 => ?_
          rw [set_load_impedance_zero_div s c hc z hz1 hz2] at h'
          simp at h'
      rw [set_load_impedance_eq s c hc z hz] at h'
      simp only [Except.ok.injEq, Prod.mk.injEq] at h'
      obtain ⟨hs, -⟩ := h'
      subst hs
      by_cases h1 : c = 1
      · simp only [h1, if_pos]
        exact ⟨rfl, h.2⟩
      · simp only [if_neg h1]
        exact ⟨h.1, rfl⟩
  · intro c z s' ev h'
    have hc := set_load_impedance_channels h'
    have hz : z = HI_Z ∨ z + R_IN ≠ 0 := by
      by_cases hz1 : z = HI_Z
      · exact Or.inl hz1
      · refine Or.inr fun hz2 => ?_
        rw [set_load_impedance_zero_div s c hc z hz1 hz2] at h'
        simp at h'
    rw [set_load_impedance_eq s c hc z hz] at h'
    simp only [Except.ok.injEq, Prod.mk.injEq] at h'
    obtain ⟨hs, -⟩ := h'
    subst hs
    rcases mem_CHANNELS hc with rfl | rfl | rfl <;> simp [pyGet2]

/-- C1 witness: a concrete state satisfying the invariant, at which all the
preservation clauses apply. -/
theorem claim_C1_witness :
    ((∀ ch t s' ev, enable_output stateBothHalf ch t = Except.ok (s', ev) → coeffInv s') ∧
    (∀ ch f s' ev, set_frequency stateBothHalf ch f = Except.ok (s', ev) → coeffInv s') ∧
    (∀ ch p s' ev, set_phase stateBothHalf ch p = Except.ok (s', ev) → coeffInv s') ∧
    (∀ ch w s' ev, set_wave_type stateBothHalf ch w = Except.ok (s', ev) → coeffInv s') ∧
    (∀ ch a s' ev, set_amplitude stateBothHalf ch a = Except.ok (s', ev) → coeffInv s') ∧
    (∀ ch o s' ev, set_offset stateBothHalf ch o = Except.ok (s', ev) → coeffInv s') ∧
    (∀ ch z s' ev, set_load_impedance stateBothHalf ch z = Except.ok (s', ev) → coeffInv s') ∧
    (∀ c z s' ev, set_load_impedance stateBothHalf (some c) z = Except.ok (s', ev) →
      pyGet2 s'.r_load (c - 1) = some z ∧ pyGet2 s'.v_out_coeff (c - 1) = some (coeffOf z))) :=
  claim_C1_coeff_divider_invariant stateBothHalf (by with_unfolding_all decide)

/-- C1 counterexample: at construction the stored load is 50 on both
channels yet the coefficient is 1, not 50/(50+50) = 1/2, so the claimed
invariant does not hold from construction onward. -/
theorem claim_C1_counterexample :
    initState.r_load = (50, 50) ∧ initState.v_out_coeff = (1, 1) ∧ ¬ coeffInv initState := by
  refine ⟨rfl, rfl, ?_⟩
  with_unfolding_all decide

/-- C2 (amended): after `set_load_impedance(ch, z)` on a valid channel with
`z ≠ -50.0`, the slot at Python index `ch - 1` (the addressed channel
itself for 1 and 2, but channel 2 when `ch = 0`) carries coefficient 1 if
`z` is the Hi-Z sentinel, else `z / (z + 50.0)`; 50 yields 1/2, the
sentinel yields 1, and 150 yields 3/4. At `z = -50.0` exactly, the
non-sentinel divider divides by zero and the call raises
`ZeroDivisionError` instead of storing a coefficient. -/
theorem claim_C2_coeff_after_set (s : FY6600State) (c : Int) (hc : c ∈ CHANNELS) (z : ℚ)
    (hz : z ≠ -R_IN) :
    (∃ s', set_load_impedance s (some c) z = Except.ok (s', []) ∧
      pyGet2 s'.v_out_coeff (c - 1) = some (if z = HI_Z then 1 else z / (z + 50))) ∧
    set_load_impedance s (some c) (-R_IN) = Except.error PyErr.zeroDivision ∧
    coeffOf 50 = 1/2 ∧ coeffOf HI_Z = 1 ∧ coeffOf 150 = 3/4 := by
  refine ⟨⟨_, set_load_impedance_eq s c hc z (guard_of_ne_neg_R_IN hz), ?_⟩, ?_, ?_, ?_, ?_⟩
  · rcases mem_CHANNELS hc with rfl | rfl | rfl <;> simp [pyGet2, coeffOf, R_IN]
  · exact set_load_impedance_zero_div s c hc (-R_IN) (by norm_num [HI_Z, R_IN]) (by ring)
  · norm_num [coeffOf, HI_Z, R_IN]
  · simp [coeffOf]
  · norm_num [coeffOf, HI_Z, R_IN]

/-- C2 witness: channel 1 with a 150 ohm load. -/
theorem claim_C2_witness :
    ((∃ s', set_load_impedance initState (some 1) 150 = Except.ok (s', []) ∧
      pyGet2 s'.v_out_coeff (1 - 1) = some (if (150 : ℚ) = HI_Z then 1 else 150 / (150 + 50))) ∧
    set_load_impedance initState (some 1) (-R_IN) = Except.error PyErr.zeroDivision ∧
    coeffOf 50 = 1/2 ∧ coeffOf HI_Z = 1 ∧ coeffOf 150 = 3/4) :=
  claim_C2_coeff_after_set initState 1 (by decide) 150 (by norm_num [R_IN])

/-- C2 counterexample: `set_load_impedance(0, 150)` addresses both
channels, yet channel 1's coefficient stays 1, not 150/(150+50) = 3/4 —
only channel 2's slot (Python index -1) is recomputed. -/
theorem claim_C2_counterexample :
    set_load_impedance initState (some 0) 150 =
      Except.ok ({ channel_on := (false, false), r_load := (50, 150), v_out_coeff := (1, 3/4) }, []) ∧
    (1 : ℚ) ≠ 150 / (150 + 50) := by
  constructor
  · with_unfolding_all decide
  · norm_num

/-- C3 (amended): for a channel outside {0, 1, 2}, `enable_output`,
`set_frequency`, `set_wave_type`, `set_amplitude`, `set_offset` and
`set_load_impedance` raise `UnknownChannelError` with the fixed message and
emit nothing, but `set_phase` performs no channel validation: it succeeds
and sends its single `WFP` command for any channel argument. -/
theorem claim_C3_invalid_channel (s : FY6600State) (c : Int) (hc : c ∉ CHANNELS)
    (t : Bool) (f p a o z : ℚ) (w : Nat) :
    enable_output s (some c) t = Except.error (PyErr.unknownChannel CHANNELS_ERROR) ∧
    set_frequency s (some c) f = Except.error (PyErr.unknownChannel CHANNELS_ERROR) ∧
    set_wave_type s (some c) w = Except.error (PyErr.unknownChannel CHANNELS_ERROR) ∧
    set_amplitude s (some c) a = Except.error (PyErr.unknownChannel CHANNELS_ERROR) ∧
    set_offset s (some c) o = Except.error (PyErr.unknownChannel CHANNELS_ERROR) ∧
    set_load_impedance s (some c) z = Except.error (PyErr.unknownChannel CHANNELS_ERROR) ∧
    set_phase s (some c) p =
      Except.ok (s, [Event.send (Cmd.wfp (if p < 0 then p + 360 else p)), Event.sleep]) := by
  refine ⟨?_, ?_, ?_, ?_, ?_, ?_, ?_⟩ <;>
    simp [enable_output, set_frequency, set_wave_type, set_amplitude, set_offset,
      set_load_impedance, set_phase, sendCommand, hc]

/-- C3 witness: channel 5 is rejected by the validating operations. -/
theorem claim_C3_witness :
    (enable_output initState (some 5) true = Except.error (PyErr.unknownChannel CHANNELS_ERROR) ∧
    set_frequency initState (some 5) 1 = Except.error (PyErr.unknownChannel CHANNELS_ERROR) ∧
    set_wave_type initState (some 5) 0 = Except.error (PyErr.unknownChannel CHANNELS_ERROR) ∧
    set_amplitude initState (some 5) 1 = Except.error (PyErr.unknownChannel CHANNELS_ERROR) ∧
    set_offset initState (some 5) 1 = Except.error (PyErr.unknownChannel CHANNELS_ERROR) ∧
    set_load_impedance initState (some 5) 1 = Except.error (PyErr.unknownChannel CHANNELS_ERROR) ∧
    set_phase initState (some 5) 1 =
      Except.ok (initState, [Event.send (Cmd.wfp (if (1 : ℚ) < 0 then 1 + 360 else 1)), Event.sleep])) :=
  claim_C3_invalid_channel initState 5 (by decide) true 1 1 1 1 1 0

/-- C3 counterexample: channel 5 is invalid, yet `set_phase(5, 10)` raises
nothing and performs a write, refuting the claim that every
parameter-setting operation (`set_phase` included) raises
`UnknownChannelError` and writes nothing. -/
theorem claim_C3_counterexample :
    (5 : Int) ∉ CHANNELS ∧
    set_phase initState (some 5) 10 = Except.ok (initState, [Event.send (Cmd.wfp 10), Event.sleep]) := by
  constructor
  · decide
  · with_unfolding_all decide

/-- C4 (amended): for every `z ≠ -50.0`, `set_load_impedance(0, z)` stores
`z` and the recomputed coefficient for channel 2 only (Python index -1);
channel 1's entries are unchanged, and for every valid channel argument no
command is sent. At `z = -50.0` exactly, the divider divides by zero and
the call raises `ZeroDivisionError` (in the source, after the load has
already been stored) instead of returning. -/
theorem claim_C4_load_channel0 (s : FY6600State) (z : ℚ) (c : Int) (hc : c ∈ CHANNELS)
    (hz : z ≠ -R_IN) :
    set_load_impedance s (some 0) z =
      Except.ok ({ s with r_load := (s.r_load.1, z), v_out_coeff := (s.v_out_coeff.1, coeffOf z) }, []) ∧
    (∃ s', set_load_impedance s (some c) z = Except.ok (s', [])) ∧
    set_load_impedance s (some 0) (-R_IN) = Except.error PyErr.zeroDivision := by
  refine ⟨?_, ?_, ?_⟩
  · simpa using set_load_impedance_eq s 0 (by decide) z (guard_of_ne_neg_R_IN hz)
  · exact ⟨_, set_load_impedance_eq s c hc z (guard_of_ne_neg_R_IN hz)⟩
  · exact set_load_impedance_zero_div s 0 (by decide) (-R_IN) (by norm_num [HI_Z, R_IN]) (by ring)

/-- C4 witness: a 75 ohm load on channel 0 and on channel 2. -/
theorem claim_C4_witness :
    (set_load_impedance initState (some 0) 75 =
      Except.ok ({ initState with r_load := (initState.r_load.1, 75), v_out_coeff := (initState.v_out_coeff.1, coeffOf 75) }, []) ∧
    (∃ s', set_load_impedance initState (some 2) 75 = Except.ok (s', [])) ∧
    set_load_impedance initState (some 0) (-R_IN) = Except.error PyErr.zeroDivision) :=
  claim_C4_load_channel0 initState 75 2 (by decide) (by norm_num [R_IN])

/-- C4 counterexample: after `set_load_impedance(0, 200)` channel 1's
stored load is still 50, not 200, refuting the claim that channel argument
0 stores the load for both channels. -/
theorem claim_C4_counterexample :
    set_load_impedance initState (some 0) 200 =
      Except.ok ({ channel_on := (false, false), r_load := (50, 200), v_out_coeff := (1, 4/5) }, []) ∧
    (50 : ℚ) ≠ 200 := by
  constructor
  · with_unfolding_all decide
  · norm_num

/-- C5 (amended): `set_amplitude` divides the requested amplitude by the
coefficient at Python index `channel - 1` — the addressed channel's own
coefficient for channels 1 and 2, but channel 2's coefficient when the
channel is 0 — formats the quotient to 3 decimal places, and sends that one
payload to every targeted channel. In particular `set_amplitude(1, 1.0)`
after `set_load_impedance(1, 50.0)` sends `"2.000"`. -/
theorem claim_C5_amplitude (s : FY6600State) (c : Int) (hc : c ∈ CHANNELS) (a : ℚ)
    (h1 : s.v_out_coeff.1 ≠ 0) (h2 : s.v_out_coeff.2 ≠ 0) :
    set_amplitude s (some c) a = Except.ok (s,
      (if c = 0 ∨ c = 1 then
        [Event.send (Cmd.wma (formatFixed 3 (a / (if c = 1 then s.v_out_coeff.1 else s.v_out_coeff.2)))), Event.sleep] else []) ++
      (if c = 0 ∨ c = 2 then
        [Event.send (Cmd.wfa (formatFixed 3 (a / (if c = 1 then s.v_out_coeff.1 else s.v_out_coeff.2)))), Event.sleep] else [])) ∧
    set_load_impedance initState (some 1) 50 = Except.ok (stateLoad1_50, []) ∧
    set_amplitude stateLoad1_50 (some 1) 1 =
      Except.ok (stateLoad1_50, [Event.send (Cmd.wma "2.000"), Event.sleep]) := by
  refine ⟨?_, ?_, ?_⟩
  · rcases mem_CHANNELS hc with rfl | rfl | rfl <;>
      simp [set_amplitude, pyGet2, sendCommand, hc, h1, h2]
  · with_unfolding_all decide
  · with_unfolding_all decide

/-- C5 witness: channel 1 at the initial state (both coefficients 1). -/
theorem claim_C5_witness :
    (set_amplitude initState (some 1) 1 = Except.ok (initState,
      (if (1 : Int) = 0 ∨ (1 : Int) = 1 then
        [Event.send (Cmd.wma (formatFixed 3 ((1 : ℚ) / (if (1 : Int) = 1 then initState.v_out_coeff.1 else initState.v_out_coeff.2)))), Event.sleep] else []) ++
      (if (1 : Int) = 0 ∨ (1 : Int) = 2 then
        [Event.send (Cmd.wfa (formatFixed 3 ((1 : ℚ) / (if (1 : Int) = 1 then initState.v_out_coeff.1 else initState.v_out_coeff.2)))), Event.sleep] else [])) ∧
    set_load_impedance initState (some 1) 50 = Except.ok (stateLoad1_50, []) ∧
    set_amplitude stateLoad1_50 (some 1) 1 =
      Except.ok (stateLoad1_50, [Event.send (Cmd.wma "2.000"), Event.sleep])) :=
  claim_C5_amplitude initState 1 (by decide) 1 (by norm_num [initState]) (by norm_num [initState])

/-- C5 counterexample: in the reachable state after `set_load_impedance(2, 50)`
the channels have different coefficients; `set_amplitude(0, 1.0)` sends the
payload `"2.000"` — computed from channel 2's coefficient — on both
channels, although dividing by channel 1's own coefficient would give
`"1.000"`. -/
theorem claim_C5_counterexample :
    set_load_impedance initState (some 2) 50 = Except.ok (stateLoad2_50, []) ∧
    set_amplitude stateLoad2_50 (some 0) 1 =
      Except.ok (stateLoad2_50,
        [Event.send (Cmd.wma "2.000"), Event.sleep, Event.send (Cmd.wfa "2.000"), Event.sleep]) ∧
    formatFixed 3 ((1 : ℚ) / stateLoad2_50.v_out_coeff.1) = "1.000" ∧
    ("2.000" : String) ≠ "1.000" := by
  refine ⟨?_, ?_, ?_, ?_⟩ <;> with_unfolding_all decide

/-- C6: `set_frequency` builds its payload by 2-decimal formatting, deleting
the decimal point and appending four zeros; it emits `WMF`, `WFF` or both
according to the channel argument; the payload never contains a decimal
point, and for 1.0, 1000.0 and 1e6 it is the literal strings shown. -/
theorem claim_C6_frequency (s : FY6600State) (c : Int) (hc : c ∈ CHANNELS) (f : ℚ) :
    set_frequency s (some c) f = Except.ok (s,
      (if c = 0 ∨ c = 1 then [Event.send (Cmd.wmf (freqPayload f)), Event.sleep] else []) ++
      (if c = 0 ∨ c = 2 then [Event.send (Cmd.wff (freqPayload f)), Event.sleep] else [])) ∧
    freqPayload f = removeDots (formatFixed 2 f) ++ "0000" ∧
    '.' ∉ (freqPayload f).data ∧
    freqPayload 1 = "1000000" ∧
    freqPayload 1000 = "1000000000" ∧
    freqPayload 1000000 = "1000000000000" := by
  refine ⟨set_frequency_eq s c hc f, rfl, freqPayload_no_dot f, ?_, ?_, ?_⟩ <;>
    with_unfolding_all decide

/-- C6 witness: channel 1 at 1.0 Hz. -/
theorem claim_C6_witness :
    (set_frequency initState (some 1) 1 = Except.ok (initState,
      (if (1 : Int) = 0 ∨ (1 : Int) = 1 then [Event.send (Cmd.wmf (freqPayload 1)), Event.sleep] else []) ++
      (if (1 : Int) = 0 ∨ (1 : Int) = 2 then [Event.send (Cmd.wff (freqPayload 1)), Event.sleep] else [])) ∧
    freqPayload 1 = removeDots (formatFixed 2 1) ++ "0000" ∧
    '.' ∉ (freqPayload (1 : ℚ)).data ∧
    freqPayload 1 = "1000000" ∧
    freqPayload 1000 = "1000000000" ∧
    freqPayload 1000000 = "1000000000000") :=
  claim_C6_frequency initState 1 (by decide) 1

/-- C7 (amended): `set_phase` always emits exactly one command with the
channel-2 prefix `WFP` for every channel argument; 360 is added once when
the phase is negative; the sent value lies in [0, 360) whenever the input
phase lies in [-360, 360) (but not in general — see the counterexample);
`set_phase(2, -10)` sends 350. -/
theorem claim_C7_phase (ch : Option Int) (p q : ℚ) (s : FY6600State)
    (h1 : -360 ≤ q) (h2 : q < 360) :
    set_phase s ch p = Except.ok (s, [Event.send (Cmd.wfp (if p < 0 then p + 360 else p)), Event.sleep]) ∧
    (0 ≤ (if q < 0 then q + 360 else q) ∧ (if q < 0 then q + 360 else q) < 360) ∧
    set_phase s (some 2) (-10) = Except.ok (s, [Event.send (Cmd.wfp 350), Event.sleep]) := by
  refine ⟨?_, ⟨?_, ?_⟩, ?_⟩
  · cases ch <;> simp [set_phase, sendCommand]
  · split <;> linarith
  · split <;> linarith
  · norm_num [set_phase, sendCommand]

/-- C7 witness: phases -400 (general clause) and -10 (ranged clause). -/
theorem claim_C7_witness :
    (set_phase initState (some 2) (-400) =
      Except.ok (initState, [Event.send (Cmd.wfp (if (-400 : ℚ) < 0 then -400 + 360 else -400)), Event.sleep]) ∧
    ((0 : ℚ) ≤ (if (-10 : ℚ) < 0 then -10 + 360 else -10) ∧ (if (-10 : ℚ) < 0 then (-10 : ℚ) + 360 else -10) < 360) ∧
    set_phase initState (some 2) (-10) = Except.ok (initState, [Event.send (Cmd.wfp 350), Event.sleep])) :=
  claim_C7_phase (some 2) (-400) (-10) initState (by norm_num) (by norm_num)

/-- C7 counterexample: 360 is added only once, so `set_phase(2, -400)`
sends -40, a negative numeral outside [0, 360), refuting "the numeral sent
always lies in [0, 360) and is never negative". -/
theorem claim_C7_counterexample :
    set_phase initState (some 2) (-400) =
      Except.ok (initState, [Event.send (Cmd.wfp (-40)), Event.sleep]) ∧
    (-40 : ℚ) < 0 := by
  constructor
  · with_unfolding_all decide
  · norm_num

/-- C8: on a valid channel, an unsupported wave type raises the value error
before any write; any supported wave type emits the hard-coded sine
commands (`WMW00` for channel 1, `WFW00` for channel 2, both for channel
0), visibly independent of which supported type was requested. -/
theorem claim_C8_wave_type (s : FY6600State) (c : Int) (hc : c ∈ CHANNELS) (w w' : Nat)
    (hw : w ∉ WAVE_TYPES) (hw' : w' ∈ WAVE_TYPES) :
    set_wave_type s (some c) w = Except.error (PyErr.valueError "Incorrect wave type.") ∧
    set_wave_type s (some c) w' = Except.ok (s,
      (if c = 0 ∨ c = 1 then [Event.send Cmd.wmw00, Event.sleep] else []) ++
      (if c = 0 ∨ c = 2 then [Event.send Cmd.wfw00, Event.sleep] else [])) := by
  constructor
  · rcases mem_CHANNELS hc with rfl | rfl | rfl <;> simp [set_wave_type, hc, hw]
  · exact set_wave_type_ok_eq s c hc w' hw'

/-- C8 witness: channel 0 with unsupported code 99 and supported code 0. -/
theorem claim_C8_witness :
    (set_wave_type initState (some 0) 99 = Except.error (PyErr.valueError "Incorrect wave type.") ∧
    set_wave_type initState (some 0) 0 = Except.ok (initState,
      (if (0 : Int) = 0 ∨ (0 : Int) = 1 then [Event.send Cmd.wmw00, Event.sleep] else []) ++
      (if (0 : Int) = 0 ∨ (0 : Int) = 2 then [Event.send Cmd.wfw00, Event.sleep] else []))) :=
  claim_C8_wave_type initState 0 (by decide) 99 0 (by decide) (by decide)

/-- C9: `enable_output(0, True)` issues exactly two writes — `WMN1` then
`WFN1`, each followed by the settling delay — and leaves both internal
enabled flags true in the resulting state. -/
theorem claim_C9_enable_both (s : FY6600State) :
    enable_output s (some 0) true =
      Except.ok ({ s with channel_on := (true, true) },
        [Event.send (Cmd.wmn "1"), Event.sleep, Event.send (Cmd.wfn "1"), Event.sleep]) := by
  simp [enable_output, sendCommand, CHANNELS]

/-- C10: `enable_output` on a single channel updates only that channel's
flag, yet still emits both channel commands: the targeted channel's command
carries the new state and the other channel's command re-transmits its
stored state. -/
theorem claim_C10_enable_single (s : FY6600State) (t : Bool) :
    (enable_output s (some 1) t =
      Except.ok ({ s with channel_on := (t, s.channel_on.2) },
        [Event.send (Cmd.wmn (if t then "1" else "0")), Event.sleep,
         Event.send (Cmd.wfn (if s.channel_on.2 then "1" else "0")), Event.sleep])) ∧
    (enable_output s (some 2) t =
      Except.ok ({ s with channel_on := (s.channel_on.1, t) },
        [Event.send (Cmd.wmn (if s.channel_on.1 then "1" else "0")), Event.sleep,
         Event.send (Cmd.wfn (if t then "1" else "0")), Event.sleep])) := by
  constructor <;> simp [enable_output, pySet2, sendCommand, CHANNELS]

end FY6600Spec
